import Mathlib

/-!
# amanuense-go: the voice-transcription pipeline

A shallow embedding of `amanuense.go`: the header inspection
(`extractSampleRate`), the recognition call and the aggregation of its results
(`transcribeVoice`), the download (`downloadVoiceMessage`) and the per-message
handler (`handleVoiceMessage`).

External collaborators (Telegram, HTTP, the speech backend, the clock) are a
`World` record of answers; every interaction is recorded, in program order, in
a list of `Event`s.  A Go `panic` is an explicit `Outcome`.  The aggregation of
the `float32` confidences is carried in exact rational arithmetic; the `float32`
product `t.confidence*100` of the reply is rounded to binary32 before it is
rendered.
-/

namespace Amanuense

/-! ## Data model -/

deriving instance DecidableEq for Except

/-- One octet of a Go `[]byte`. -/
abbrev Byte := Fin 256

/-- The `transcription` struct. -/
structure Transcription where
  text : String
  confidence : ℚ
  duration : Int
  deriving DecidableEq

/-- The fields of `tgbotapi.Voice` the handler reads. -/
structure Voice where
  fileID : String
  duration : Int
  deriving DecidableEq

/-- A `speechpb.SpeechRecognitionAlternative`. -/
structure SpeechRecognitionAlternative where
  transcript : String
  confidence : ℚ
  deriving DecidableEq

/-- A `speechpb.SpeechRecognitionResult`: alternatives ranked best first. -/
structure SpeechRecognitionResult where
  alternatives : List SpeechRecognitionAlternative
  deriving DecidableEq

/-- The audio encodings of `speechpb.RecognitionConfig` that matter here. -/
inductive AudioEncoding where
  | ENCODING_UNSPECIFIED
  | OGG_OPUS
  deriving DecidableEq

/-- A `speechpb.RecognitionConfig`; `sampleRateHertz` is an `int32` field. -/
structure RecognitionConfig where
  encoding : AudioEncoding
  sampleRateHertz : Int
  languageCode : String
  deriving DecidableEq

/-- A `speechpb.RecognizeRequest`. -/
structure RecognizeRequest where
  config : RecognitionConfig
  audio : List Byte
  deriving DecidableEq

/-- An `*http.Response`, reduced to what `ioutil.ReadAll(resp.Body)` yields. -/
structure Response where
  body : Except String (List Byte)

/-- The answers of the external collaborators during one invocation. -/
structure World where
  getFileDirectURL : String → Except String String
  httpGet : String → Except String Response
  newClient : Except String Unit
  recognize : RecognizeRequest → Except String (List SpeechRecognitionResult)
  /-- Nanoseconds measured by `time.Since(start)` around the recognition call. -/
  elapsed : Nat

/-- Observable interactions, in program order. -/
inductive Event where
  | send (chatID : Int) (message : String) (parseMode : String)
  | log (line : String)
  | callGetFileDirectURL (fileID : String)
  | callHttpGet (url : String)
  | callReadAll
  | callNewClient
  | callRecognize (req : RecognizeRequest)
  | callClose
  deriving DecidableEq

/-- How a Go call ends: it returns a value, or a panic unwinds through it. -/
inductive Outcome (α : Type) where
  | returned (a : α)
  | panicked (msg : String)
  deriving DecidableEq

/-! ## Constants -/

def errorMessage : String := "C'è stato un errore durante la trascrizione. Riprova più tardi."

def tooLongMessage : String := "Trascrivo solo messaggi fino a 60 secondi!"

def inProgressMessage : String := "Trascrizione in corso..."

def emptyMessage : String := "Questo messaggio sembra essere vuoto."

/-! ## Library functions used by the source -/

/-- Go's `binary.LittleEndian.Uint32`. -/
def littleEndianUint32 (b : List Byte) : Nat :=
  match b with
  | b0 :: b1 :: b2 :: b3 :: _ =>
      (b0.val ||| (b1.val <<< 8) ||| (b2.val <<< 16) ||| (b3.val <<< 24)) % 2 ^ 32
  | _ => 0

/-- Go's conversion `int32(x)` of a `uint32`: the same 32 bits, read as two's complement. -/
def toInt32 (x : Nat) : Int :=
  if x % 2 ^ 32 < 2 ^ 31 then ((x % 2 ^ 32 : Nat) : Int) else ((x % 2 ^ 32 : Nat) : Int) - 2 ^ 32

/-- Go's `strings.Join`. -/
def stringsJoin (parts : List String) (sep : String) : String :=
  sep.intercalate parts

/-- Round `n / d` to the nearest integer, ties to even. -/
def roundDivHalfEven (n d : Nat) : Nat :=
  let f := n / d
  let r := n % d
  if 2 * r < d then f
  else if d < 2 * r then f + 1
  else if f % 2 = 0 then f else f + 1

/-- Round a non-negative rational to the nearest integer, ties to even. -/
def roundHalfEven (q : ℚ) : Nat :=
  roundDivHalfEven q.num.natAbs q.den

/-- The number of halvings that take `n` below 2, within `fuel` steps. -/
def log2Fuel : Nat → Nat → Nat
  | 0, _ => 0
  | fuel + 1, n => if n < 2 then 0 else log2Fuel fuel (n / 2) + 1

/-- The integer `e` with `2^e ≤ n / d < 2^(e+1)`, for positive `n` and `d`. -/
def floorLog2 (n d : Nat) : Int :=
  let k : Int := (log2Fuel n n : Int) - (log2Fuel d d : Int)
  if 0 ≤ k then
    (if d * 2 ^ k.toNat ≤ n then k else k - 1)
  else
    (if d ≤ n * 2 ^ (-k).toNat then k else k - 1)

/-- The magnitude a `float32` operation delivers when its exact result has magnitude `x`:
the nearest multiple of the binary32 unit in the last place at `x` (24 significant bits, unit
at least `2^-149`), ties to even, with the exponent unbounded above. -/
def roundBinary32 (x : ℚ) : ℚ :=
  if x ≤ 0 then 0
  else
    let n := x.num.natAbs
    let d := x.den
    let q : Int := max (floorLog2 n d - 23) (-149)
    if 0 ≤ q then
      ((roundDivHalfEven n (d * 2 ^ q.toNat) * 2 ^ q.toNat : Nat) : ℚ)
    else
      mkRat (roundDivHalfEven (n * 2 ^ (-q).toNat) d : Nat) (2 ^ (-q).toNat)

/-- The text `fmt.Sprintf("%.1f", c*100)` for a `float32` confidence of value `c`: the
product is rounded to binary32 (an infinity from `2^128` on) and rendered, from its exact
value, with one decimal place, ties to even. -/
def formatPercent (c : ℚ) : String :=
  let p := c * 100
  let r := roundBinary32 |p|
  if (2 : ℚ) ^ 128 ≤ r then
    (if p < 0 then "-Inf" else "+Inf")
  else
    let t := roundHalfEven (r * 10)
    (if p < 0 then "-" else "") ++ toString (t / 10) ++ "." ++ toString (t % 10)

/-- Go's `int(duration.Seconds())` for a non-negative `time.Duration` in nanoseconds. -/
def wholeSeconds (ns : Nat) : Int :=
  ((ns / 1000000000 : Nat) : Int)

/-! ## The program -/

/-- The function `extractSampleRate`; `.panicked msg` is `log.Panicf`, which prints `msg` to
the log and then panics with it. -/
def extractSampleRate (data : List Byte) : Outcome Nat :=
  if data.length < 44 then
    .panicked ("unexpected data length: " ++ toString data.length)
  else
    .returned (littleEndianUint32 ((data.drop 40).take 4))

/-- The function `sendMessage`. -/
def sendMessage (chatID : Int) (message : String) : List Event :=
  [Event.send chatID message "markdown"]

/-- The function `downloadVoiceMessage`. -/
def downloadVoiceMessage (w : World) (voice : Voice) :
    List Event × Except String (List Byte) :=
  match w.getFileDirectURL voice.fileID with
  | .error err =>
      ([Event.callGetFileDirectURL voice.fileID,
        Event.log ("could not get voice file url: " ++ err ++ "\n")], .error err)
  | .ok url =>
      match w.httpGet url with
      | .error err =>
          ([Event.callGetFileDirectURL voice.fileID, Event.callHttpGet url,
            Event.log ("could not download voice file: " ++ err ++ "\n")], .error err)
      | .ok resp =>
          ([Event.callGetFileDirectURL voice.fileID, Event.callHttpGet url,
            Event.callReadAll], resp.body)

/-- One iteration of the loop over `res.Results` in `transcribeVoice`. -/
def aggregateStep (acc : List String × ℚ) (r : SpeechRecognitionResult) : List String × ℚ :=
  match r.alternatives with
  | [] => acc
  | a :: _ => (acc.1 ++ [a.transcript], acc.2 + a.confidence)

/-- The tail of `transcribeVoice`, from `len(res.Results) == 0` on. -/
def aggregate (results : List SpeechRecognitionResult) (elapsed : Nat) : Option Transcription :=
  if results.length = 0 then none
  else
    let acc := results.foldl aggregateStep ([], 0)
    some { text := stringsJoin acc.1 " "
           confidence := acc.2 / (results.length : ℚ)
           duration := wholeSeconds elapsed }

/-- The request built by `transcribeVoice`. -/
def buildRequest (data : List Byte) (sr : Nat) : RecognizeRequest :=
  { config := { encoding := AudioEncoding.OGG_OPUS
                sampleRateHertz := toInt32 sr
                languageCode := "it-IT" }
    audio := data }

/-- The function `transcribeVoice`. -/
def transcribeVoice (w : World) (data : List Byte) :
    List Event × Outcome (Except String (Option Transcription)) :=
  match extractSampleRate data with
  | .panicked msg => ([Event.log msg], .panicked msg)
  | .returned sr =>
      match w.newClient with
      | .error err =>
          ([Event.callNewClient,
            Event.log ("could not instantiate speech client: " ++ err ++ "\n")],
           .returned (.error err))
      | .ok _ =>
          let req := buildRequest data sr
          match w.recognize req with
          | .error err =>
              ([Event.callNewClient, Event.callRecognize req,
                Event.log ("could not recognize audio: " ++ err ++ "\n"), Event.callClose],
               .returned (.error err))
          | .ok results =>
              ([Event.callNewClient, Event.callRecognize req, Event.callClose],
               .returned (.ok (aggregate results w.elapsed)))

/-- The reply text built by `handleVoiceMessage` from a transcription. -/
def replyText (t : Transcription) : String :=
  t.text ++ ("\n\n\\[confidenza: " ++ formatPercent t.confidence ++ "%; durata: "
    ++ toString t.duration ++ " secondi]")

/-- The function `handleVoiceMessage`. -/
def handleVoiceMessage (w : World) (chatID : Int) (voice : Voice) :
    List Event × Outcome Unit :=
  if voice.duration > 60 then
    (sendMessage chatID tooLongMessage, .returned ())
  else
    let pre := sendMessage chatID inProgressMessage
    match downloadVoiceMessage w voice with
    | (tr, .error err) =>
        (pre ++ tr ++ [Event.log ("could not get voice data: " ++ err ++ "\n")]
          ++ sendMessage chatID errorMessage, .returned ())
    | (tr, .ok d) =>
        match transcribeVoice w d with
        | (tr2, .panicked msg) => (pre ++ tr ++ tr2, .panicked msg)
        | (tr2, .returned (.error err)) =>
            (pre ++ tr ++ tr2 ++ [Event.log ("could not transcribe voice: " ++ err ++ "\n")]
              ++ sendMessage chatID errorMessage, .returned ())
        | (tr2, .returned (.ok none)) =>
            (pre ++ tr ++ tr2 ++ sendMessage chatID emptyMessage, .returned ())
        | (tr2, .returned (.ok (some t))) =>
            (pre ++ tr ++ tr2 ++ sendMessage chatID (replyText t), .returned ())

/-! ## Observations on a trace -/

/-- The texts of the outbound chat messages, in order. -/
def sentMessages (tr : List Event) : List String :=
  tr.filterMap (fun e => match e with | Event.send _ m _ => some m | _ => none)

/-- The log lines, in order. -/
def logLines (tr : List Event) : List String :=
  tr.filterMap (fun e => match e with | Event.log l => some l | _ => none)

/-- The requests submitted to the recognition backend, in order. -/
def recognizeRequests (tr : List Event) : List RecognizeRequest :=
  tr.filterMap (fun e => match e with | Event.callRecognize r => some r | _ => none)

/-- The calls to external collaborators (everything but sends and log lines), in order. -/
def externalCalls (tr : List Event) : List Event :=
  tr.filter (fun e => match e with | Event.send _ _ _ => false | Event.log _ => false | _ => true)

/-! ## Sample inputs -/

/-- A 44-byte buffer whose bytes 40..43 are the given ones, the others zero. -/
def headerWith (b0 b1 b2 b3 : Byte) : List Byte :=
  List.replicate 40 0 ++ [b0, b1, b2, b3]

/-- A world in which every collaborator succeeds: the download yields `data`, the backend
`results`, and the recognition call takes `ns` nanoseconds. -/
def okWorld (data : List Byte) (results : List SpeechRecognitionResult) (ns : Nat) : World :=
  { getFileDirectURL := fun _ => .ok "https://example.org/voice.oga"
    httpGet := fun _ => .ok { body := .ok data }
    newClient := .ok ()
    recognize := fun _ => .ok results
    elapsed := ns }

/-- A world in which fetching the file URL fails with error `e`. -/
def urlFailWorld (e : String) : World :=
  { getFileDirectURL := fun _ => .error e
    httpGet := fun _ => .error "unreachable"
    newClient := .ok ()
    recognize := fun _ => .ok []
    elapsed := 0 }

/-- A world in which the download request succeeds and reading the response body fails with
error `e`. -/
def bodyFailWorld (e : String) : World :=
  { getFileDirectURL := fun _ => .ok "https://example.org/voice.oga"
    httpGet := fun _ => .ok { body := .error e }
    newClient := .ok ()
    recognize := fun _ => .ok []
    elapsed := 0 }

/-! ## Specification-side definitions -/

/-- One of these steps fails: fetching the file URL, the download request (`http.Get`),
creating the speech client, or the recognition call. -/
def StepFails (w : World) (v : Voice) : Prop :=
  (∃ e, w.getFileDirectURL v.fileID = Except.error e)
  ∨ (∃ url e, w.getFileDirectURL v.fileID = Except.ok url ∧ w.httpGet url = Except.error e)
  ∨ (∃ data sr e, (downloadVoiceMessage w v).2 = Except.ok data
      ∧ extractSampleRate data = Outcome.returned sr ∧ w.newClient = Except.error e)
  ∨ (∃ data sr e, (downloadVoiceMessage w v).2 = Except.ok data
      ∧ extractSampleRate data = Outcome.returned sr ∧ w.newClient = Except.ok ()
      ∧ w.recognize (buildRequest data sr) = Except.error e)

/-- The download fails after the request succeeded: reading the response body
(`ioutil.ReadAll`) returns an error. -/
def BodyReadFails (w : World) (v : Voice) : Prop :=
  ∃ url resp e, w.getFileDirectURL v.fileID = Except.ok url ∧ w.httpGet url = Except.ok resp
    ∧ resp.body = Except.error e

/-- The items joined "with exactly one space between consecutive items". -/
def joinSingleSpace : List String → String
  | [] => ""
  | [a] => a
  | a :: b :: rest => a ++ " " ++ joinSingleSpace (b :: rest)

/-- The best-ranked (first) alternative of a result, when it has one. -/
def firstAlternative (r : SpeechRecognitionResult) : Option SpeechRecognitionAlternative :=
  r.alternatives.head?

/-- The little-endian value of the four bytes `b0 b1 b2 b3`. -/
def le32 (b0 b1 b2 b3 : Byte) : Nat :=
  b0.val + 2 ^ 8 * b1.val + 2 ^ 16 * b2.val + 2 ^ 24 * b3.val

/-! ## Lemmas on the library functions -/

theorem littleEndianUint32_cons (b0 b1 b2 b3 : Byte) (rest : List Byte) :
    littleEndianUint32 (b0 :: b1 :: b2 :: b3 :: rest) = le32 b0 b1 b2 b3 := by
  have h0 := b0.isLt
  have h1 := b1.isLt
  have h2 := b2.isLt
  have h3 := b3.isLt
  have e1 : b0.val ||| (b1.val <<< 8) = 2 ^ 8 * b1.val + b0.val := by
    rw [Nat.shiftLeft_eq, Nat.lor_comm, Nat.mul_comm b1.val]
    exact (Nat.mul_add_lt_is_or (by omega) _).symm
  have e2 : (2 ^ 8 * b1.val + b0.val) ||| (b2.val <<< 16)
      = 2 ^ 16 * b2.val + (2 ^ 8 * b1.val + b0.val) := by
    rw [Nat.shiftLeft_eq, Nat.lor_comm, Nat.mul_comm b2.val]
    exact (Nat.mul_add_lt_is_or (by omega) _).symm
  have e3 : (2 ^ 16 * b2.val + (2 ^ 8 * b1.val + b0.val)) ||| (b3.val <<< 24)
      = 2 ^ 24 * b3.val + (2 ^ 16 * b2.val + (2 ^ 8 * b1.val + b0.val)) := by
    rw [Nat.shiftLeft_eq, Nat.lor_comm, Nat.mul_comm b3.val]
    exact (Nat.mul_add_lt_is_or (by omega) _).symm
  simp only [littleEndianUint32, le32, e1, e2, e3]
  omega

theorem le32_lt (b0 b1 b2 b3 : Byte) : le32 b0 b1 b2 b3 < 2 ^ 32 := by
  have h0 := b0.isLt
  have h1 := b1.isLt
  have h2 := b2.isLt
  have h3 := b3.isLt
  simp only [le32]
  omega

theorem drop40_take4 (data : List Byte) (h : 44 ≤ data.length) :
    (data.drop 40).take 4 = [data[40], data[41], data[42], data[43]] := by
  rw [List.drop_eq_getElem_cons (by omega : 40 < data.length),
    List.drop_eq_getElem_cons (by omega : 41 < data.length),
    List.drop_eq_getElem_cons (by omega : 42 < data.length),
    List.drop_eq_getElem_cons (by omega : 43 < data.length)]
  rfl

theorem extractSampleRate_of_le (data : List Byte) (h : 44 ≤ data.length) :
    extractSampleRate data = .returned (le32 data[40] data[41] data[42] data[43]) := by
  have hn : ¬ data.length < 44 := by omega
  simp only [extractSampleRate, hn, if_false, drop40_take4 data h, littleEndianUint32_cons]

theorem joinSingleSpace_append_head (x y : String) (rest : List String) :
    joinSingleSpace ((x ++ y) :: rest) = x ++ joinSingleSpace (y :: rest) := by
  cases rest with
  | nil => rfl
  | cons c r => simp only [joinSingleSpace, String.append_assoc]

theorem intercalate_go_eq (acc : String) (l : List String) :
    String.intercalate.go acc " " l = joinSingleSpace (acc :: l) := by
  induction l generalizing acc with
  | nil => rfl
  | cons b rest ih =>
      rw [String.intercalate.go, ih, String.append_assoc, joinSingleSpace_append_head,
        joinSingleSpace_append_head, joinSingleSpace, String.append_assoc]

theorem stringsJoin_space (parts : List String) :
    stringsJoin parts " " = joinSingleSpace parts := by
  cases parts with
  | nil => rfl
  | cons a rest => exact intercalate_go_eq a rest

/-! ## Lemmas on the aggregation loop -/

theorem foldl_aggregateStep (results : List SpeechRecognitionResult) (acc : List String × ℚ) :
    results.foldl aggregateStep acc
      = (acc.1 ++ (results.filterMap firstAlternative).map (fun a => a.transcript),
         acc.2 + ((results.filterMap firstAlternative).map (fun a => a.confidence)).sum) := by
  induction results generalizing acc with
  | nil => simp
  | cons r rest ih =>
      rw [List.foldl_cons, ih]
      rcases r with ⟨alts⟩
      cases alts with
      | nil => simp [aggregateStep, firstAlternative]
      | cons a more => simp [aggregateStep, firstAlternative, add_assoc]

theorem aggregate_of_ne_nil (results : List SpeechRecognitionResult) (ns : Nat)
    (hne : results ≠ []) :
    aggregate results ns = some
      { text := joinSingleSpace ((results.filterMap firstAlternative).map (fun a => a.transcript))
        confidence := ((results.filterMap firstAlternative).map (fun a => a.confidence)).sum
          / (results.length : ℚ)
        duration := wholeSeconds ns } := by
  have hl : ¬ results.length = 0 := by
    intro h
    exact hne (List.length_eq_zero.mp h)
  simp [aggregate, hl, foldl_aggregateStep, stringsJoin_space]

theorem transcribeVoice_ok (w : World) (data : List Byte) (sr : Nat)
    (results : List SpeechRecognitionResult)
    (hsr : extractSampleRate data = .returned sr) (hc : w.newClient = .ok ())
    (hr : w.recognize (buildRequest data sr) = .ok results) :
    transcribeVoice w data
      = ([Event.callNewClient, Event.callRecognize (buildRequest data sr), Event.callClose],
         .returned (.ok (aggregate results w.elapsed))) := by
  simp only [transcribeVoice, hsr, hc, hr]

/-! ## Lemmas on the handler -/

theorem download_ok_trace (w : World) (v : Voice) (data : List Byte)
    (hd : (downloadVoiceMessage w v).2 = Except.ok data) :
    ∃ url, (downloadVoiceMessage w v).1
      = [Event.callGetFileDirectURL v.fileID, Event.callHttpGet url, Event.callReadAll] := by
  cases h1 : w.getFileDirectURL v.fileID with
  | error e => simp [downloadVoiceMessage, h1] at hd
  | ok url =>
      cases h2 : w.httpGet url with
      | error e => simp [downloadVoiceMessage, h1, h2] at hd
      | ok resp => exact ⟨url, by simp only [downloadVoiceMessage, h1, h2]⟩

theorem download_trace_head (w : World) (v : Voice) :
    ∃ rest, (downloadVoiceMessage w v).1 = Event.callGetFileDirectURL v.fileID :: rest := by
  cases h1 : w.getFileDirectURL v.fileID with
  | error e =>
      simp only [downloadVoiceMessage, h1]
      exact ⟨_, rfl⟩
  | ok url =>
      cases h2 : w.httpGet url with
      | error e =>
          simp only [downloadVoiceMessage, h1, h2]
          exact ⟨_, rfl⟩
      | ok resp =>
          simp only [downloadVoiceMessage, h1, h2]
          exact ⟨_, rfl⟩

theorem handleVoiceMessage_download_error (w : World) (c : Int) (v : Voice) (err : String)
    (hdur : v.duration ≤ 60) (hd : (downloadVoiceMessage w v).2 = Except.error err) :
    handleVoiceMessage w c v
      = (sendMessage c inProgressMessage ++ (downloadVoiceMessage w v).1
          ++ [Event.log ("could not get voice data: " ++ err ++ "\n")]
          ++ sendMessage c errorMessage, Outcome.returned ()) := by
  have hn : ¬ v.duration > 60 := by omega
  rcases hdl : downloadVoiceMessage w v with ⟨tr, r⟩
  rw [hdl] at hd
  simp only at hd
  subst hd
  simp only [handleVoiceMessage, hn, if_false, hdl]

theorem handleVoiceMessage_panicked (w : World) (c : Int) (v : Voice) (data : List Byte)
    (tr2 : List Event) (msg : String)
    (hdur : v.duration ≤ 60) (hd : (downloadVoiceMessage w v).2 = Except.ok data)
    (ht : transcribeVoice w data = (tr2, Outcome.panicked msg)) :
    handleVoiceMessage w c v
      = (sendMessage c inProgressMessage ++ (downloadVoiceMessage w v).1 ++ tr2,
          Outcome.panicked msg) := by
  have hn : ¬ v.duration > 60 := by omega
  rcases hdl : downloadVoiceMessage w v with ⟨tr, r⟩
  rw [hdl] at hd
  simp only at hd
  subst hd
  simp only [handleVoiceMessage, hn, if_false, hdl, ht]

theorem handleVoiceMessage_transcribe_error (w : World) (c : Int) (v : Voice)
    (data : List Byte) (tr2 : List Event) (err : String)
    (hdur : v.duration ≤ 60) (hd : (downloadVoiceMessage w v).2 = Except.ok data)
    (ht : transcribeVoice w data = (tr2, Outcome.returned (Except.error err))) :
    handleVoiceMessage w c v
      = (sendMessage c inProgressMessage ++ (downloadVoiceMessage w v).1 ++ tr2
          ++ [Event.log ("could not transcribe voice: " ++ err ++ "\n")]
          ++ sendMessage c errorMessage, Outcome.returned ()) := by
  have hn : ¬ v.duration > 60 := by omega
  rcases hdl : downloadVoiceMessage w v with ⟨tr, r⟩
  rw [hdl] at hd
  simp only at hd
  subst hd
  simp only [handleVoiceMessage, hn, if_false, hdl, ht]

theorem handleVoiceMessage_none (w : World) (c : Int) (v : Voice)
    (data : List Byte) (tr2 : List Event)
    (hdur : v.duration ≤ 60) (hd : (downloadVoiceMessage w v).2 = Except.ok data)
    (ht : transcribeVoice w data = (tr2, Outcome.returned (Except.ok none))) :
    handleVoiceMessage w c v
      = (sendMessage c inProgressMessage ++ (downloadVoiceMessage w v).1 ++ tr2
          ++ sendMessage c emptyMessage, Outcome.returned ()) := by
  have hn : ¬ v.duration > 60 := by omega
  rcases hdl : downloadVoiceMessage w v with ⟨tr, r⟩
  rw [hdl] at hd
  simp only at hd
  subst hd
  simp only [handleVoiceMessage, hn, if_false, hdl, ht]

theorem handleVoiceMessage_some (w : World) (c : Int) (v : Voice)
    (data : List Byte) (tr2 : List Event) (t : Transcription)
    (hdur : v.duration ≤ 60) (hd : (downloadVoiceMessage w v).2 = Except.ok data)
    (ht : transcribeVoice w data = (tr2, Outcome.returned (Except.ok (some t)))) :
    handleVoiceMessage w c v
      = (sendMessage c inProgressMessage ++ (downloadVoiceMessage w v).1 ++ tr2
          ++ sendMessage c (replyText t), Outcome.returned ()) := by
  have hn : ¬ v.duration > 60 := by omega
  rcases hdl : downloadVoiceMessage w v with ⟨tr, r⟩
  rw [hdl] at hd
  simp only at hd
  subst hd
  simp only [handleVoiceMessage, hn, if_false, hdl, ht]

theorem handleVoiceMessage_trace_head (w : World) (c : Int) (v : Voice)
    (hdur : v.duration ≤ 60) :
    ∃ rest, (handleVoiceMessage w c v).1
      = sendMessage c inProgressMessage ++ (downloadVoiceMessage w v).1 ++ rest := by
  rcases hd : (downloadVoiceMessage w v).2 with err | data
  · rw [handleVoiceMessage_download_error w c v err hdur hd]
    exact ⟨[Event.log ("could not get voice data: " ++ err ++ "\n")]
      ++ sendMessage c errorMessage, by simp only [List.append_assoc]⟩
  · rcases ht : transcribeVoice w data with ⟨tr2, out⟩
    rcases out with r | msg
    · rcases r with err | t
      · rw [handleVoiceMessage_transcribe_error w c v data tr2 err hdur hd ht]
        exact ⟨tr2 ++ [Event.log ("could not transcribe voice: " ++ err ++ "\n")]
          ++ sendMessage c errorMessage, by simp only [List.append_assoc]⟩
      · cases t with
        | none =>
            rw [handleVoiceMessage_none w c v data tr2 hdur hd ht]
            exact ⟨tr2 ++ sendMessage c emptyMessage, by simp only [List.append_assoc]⟩
        | some t =>
            rw [handleVoiceMessage_some w c v data tr2 t hdur hd ht]
            exact ⟨tr2 ++ sendMessage c (replyText t), by simp only [List.append_assoc]⟩
    · rw [handleVoiceMessage_panicked w c v data tr2 msg hdur hd ht]
      exact ⟨tr2, rfl⟩

theorem sentMessages_append (a b : List Event) :
    sentMessages (a ++ b) = sentMessages a ++ sentMessages b := by
  simp [sentMessages]

theorem logLines_append (a b : List Event) :
    logLines (a ++ b) = logLines a ++ logLines b := by
  simp [logLines]

theorem recognizeRequests_append (a b : List Event) :
    recognizeRequests (a ++ b) = recognizeRequests a ++ recognizeRequests b := by
  simp [recognizeRequests]

theorem filterMap_firstAlternative_nil (results : List SpeechRecognitionResult)
    (h : ∀ r ∈ results, r.alternatives = []) : results.filterMap firstAlternative = [] := by
  induction results with
  | nil => rfl
  | cons r rest ih =>
      have hr : firstAlternative r = none := by
        simp [firstAlternative, h r (List.mem_cons_self _ _)]
      rw [List.filterMap_cons, hr]
      exact ih (fun x hx => h x (List.mem_cons_of_mem _ hx))

theorem ne_append_of_head (a b x : String) (ca cb : Char)
    (ha : a.data.head? = some ca) (hb : b.data.head? = some cb) (hne : ca ≠ cb) :
    a ≠ b ++ x := by
  intro h
  have h2 : a.data.head? = (b ++ x).data.head? := by rw [← h]
  rw [String.data_append] at h2
  cases hbd : b.data with
  | nil => simp [hbd] at hb
  | cons c cs =>
      rw [hbd] at hb h2
      simp only [List.cons_append, List.head?_cons] at hb h2
      rw [ha] at h2
      exact hne ((Option.some.inj h2).trans (Option.some.inj hb))

theorem replyText_eq (t : Transcription) :
    replyText t = t.text ++ "\n\n" ++ "\\[confidenza: " ++ formatPercent t.confidence
      ++ "%; durata: " ++ toString t.duration ++ " secondi]" := by
  have e : "\n\n\\[confidenza: " = "\n\n" ++ "\\[confidenza: " := by decide
  simp only [replyText, e, String.append_assoc]

theorem formatPercent_zero : formatPercent 0 = "0.0" := by
  decide!

theorem newline_mem_replyText (t : Transcription) : '\n' ∈ (replyText t).data := by
  have h : '\n' ∈ ("\n\n\\[confidenza: " : String).data := by decide
  simp only [replyText, String.data_append, List.mem_append]
  exact Or.inr (Or.inl (Or.inl (Or.inl (Or.inl h))))

theorem replyText_ne (t : Transcription) (s : String) (hs : '\n' ∉ s.data) :
    s ≠ replyText t := by
  intro h
  exact hs (h ▸ newline_mem_replyText t)

theorem stepFails_trace (w : World) (c : Int) (v : Voice)
    (hdur : v.duration ≤ 60) (hfail : StepFails w v) :
    (handleVoiceMessage w c v).2 = Outcome.returned ()
    ∧ sentMessages (handleVoiceMessage w c v).1 = [inProgressMessage, errorMessage]
    ∧ (logLines (handleVoiceMessage w c v).1).length = 2
    ∧ (externalCalls (handleVoiceMessage w c v).1).Nodup := by
  rcases hfail with ⟨e, h1⟩ | ⟨url, e, h1, h2⟩ | ⟨data, sr, e, hd, hsr, hc⟩
    | ⟨data, sr, e, hd, hsr, hc, hr⟩
  · have hdl : downloadVoiceMessage w v
        = ([Event.callGetFileDirectURL v.fileID,
            Event.log ("could not get voice file url: " ++ e ++ "\n")], Except.error e) := by
      simp only [downloadVoiceMessage, h1]
    rw [handleVoiceMessage_download_error w c v e hdur (by rw [hdl]), hdl]
    refine ⟨rfl, rfl, rfl, ?_⟩
    simp [externalCalls, sendMessage]
  · have hdl : downloadVoiceMessage w v
        = ([Event.callGetFileDirectURL v.fileID, Event.callHttpGet url,
            Event.log ("could not download voice file: " ++ e ++ "\n")], Except.error e) := by
      simp only [downloadVoiceMessage, h1, h2]
    rw [handleVoiceMessage_download_error w c v e hdur (by rw [hdl]), hdl]
    refine ⟨rfl, rfl, rfl, ?_⟩
    simp [externalCalls, sendMessage]
  · obtain ⟨url, htr⟩ := download_ok_trace w v data hd
    have ht : transcribeVoice w data
        = ([Event.callNewClient,
            Event.log ("could not instantiate speech client: " ++ e ++ "\n")],
           Outcome.returned (Except.error e)) := by
      simp only [transcribeVoice, hsr, hc]
    rw [handleVoiceMessage_transcribe_error w c v data _ e hdur hd ht, htr]
    refine ⟨rfl, rfl, rfl, ?_⟩
    simp [externalCalls, sendMessage]
  · obtain ⟨url, htr⟩ := download_ok_trace w v data hd
    have ht : transcribeVoice w data
        = ([Event.callNewClient, Event.callRecognize (buildRequest data sr),
            Event.log ("could not recognize audio: " ++ e ++ "\n"), Event.callClose],
           Outcome.returned (Except.error e)) := by
      simp only [transcribeVoice, hsr, hc, hr]
    rw [handleVoiceMessage_transcribe_error w c v data _ e hdur hd ht, htr]
    refine ⟨rfl, rfl, rfl, ?_⟩
    simp [externalCalls, sendMessage]

theorem bodyReadFails_trace (w : World) (c : Int) (v : Voice)
    (hdur : v.duration ≤ 60) (hfail : BodyReadFails w v) :
    (handleVoiceMessage w c v).2 = Outcome.returned ()
    ∧ sentMessages (handleVoiceMessage w c v).1 = [inProgressMessage, errorMessage]
    ∧ (logLines (handleVoiceMessage w c v).1).length = 1
    ∧ (externalCalls (handleVoiceMessage w c v).1).Nodup := by
  obtain ⟨url, resp, e, h1, h2, h3⟩ := hfail
  have hdl : downloadVoiceMessage w v
      = ([Event.callGetFileDirectURL v.fileID, Event.callHttpGet url, Event.callReadAll],
          Except.error e) := by
    simp only [downloadVoiceMessage, h1, h2, h3]
  rw [handleVoiceMessage_download_error w c v e hdur (by rw [hdl]), hdl]
  refine ⟨rfl, rfl, rfl, ?_⟩
  simp [externalCalls, sendMessage]

/-! ## Header inspection -/

/-- C1: `extractSampleRate` depends on the buffer alone. On a buffer of at least 44 bytes it
returns `data[40] + 2^8*data[41] + 2^16*data[42] + 2^24*data[43]`, the bytes `[40,44)` read
as a little-endian unsigned 32-bit integer, whatever the other bytes are; on a shorter
buffer it panics and returns no sample rate. -/
theorem extractSampleRate_spec (data : List Byte) :
    (∀ h : 44 ≤ data.length,
        extractSampleRate data = Outcome.returned
          ((data.get ⟨40, by omega⟩).val + 2 ^ 8 * (data.get ⟨41, by omega⟩).val
            + 2 ^ 16 * (data.get ⟨42, by omega⟩).val + 2 ^ 24 * (data.get ⟨43, by omega⟩).val))
    ∧ (data.length < 44 →
        (∃ msg, extractSampleRate data = Outcome.panicked msg)
          ∧ ∀ sr, extractSampleRate data ≠ Outcome.returned sr) := by
  refine ⟨fun h => ?_, fun h => ?_⟩
  · rw [extractSampleRate_of_le data h]
    rfl
  · simp [extractSampleRate, h]

/-- C1, at a 44-byte buffer whose header field holds 48000 (`80 BB 00 00`). -/
theorem extractSampleRate_spec_witness :
    44 ≤ (headerWith 0x80 0xBB 0 0).length
      ∧ extractSampleRate (headerWith 0x80 0xBB 0 0) = Outcome.returned 48000 :=
  ⟨by decide, ((extractSampleRate_spec (headerWith 0x80 0xBB 0 0)).1 (by decide)).trans
    (by decide)⟩

/-! ## Aggregation -/

/-- C2: for a non-empty list of recognition results, the text of the transcription built by
`transcribeVoice` is the first alternative's transcript of each result that has an
alternative, in the original order, joined with exactly one space between consecutive
items; a result without alternatives adds neither text nor separator. -/
theorem transcribeVoice_text (w : World) (data : List Byte) (sr : Nat)
    (results : List SpeechRecognitionResult)
    (hsr : extractSampleRate data = Outcome.returned sr) (hc : w.newClient = Except.ok ())
    (hr : w.recognize (buildRequest data sr) = Except.ok results) (hne : results ≠ []) :
    ∃ t, (transcribeVoice w data).2 = Outcome.returned (Except.ok (some t))
      ∧ t.text = joinSingleSpace
          ((results.filterMap firstAlternative).map (fun a => a.transcript)) := by
  rw [transcribeVoice_ok w data sr results hsr hc hr, aggregate_of_ne_nil results _ hne]
  exact ⟨_, rfl, rfl⟩

/-- C2, at three results of which the middle one has no alternatives. -/
theorem transcribeVoice_text_witness :
    ∃ t, (transcribeVoice
            (okWorld (headerWith 0x80 0xBB 0 0)
              [⟨[⟨"ciao", 9 / 10⟩, ⟨"cacao", 1 / 10⟩]⟩, ⟨[]⟩, ⟨[⟨"mondo", 1 / 2⟩]⟩] 0)
            (headerWith 0x80 0xBB 0 0)).2 = Outcome.returned (Except.ok (some t))
      ∧ t.text = "ciao mondo" := by
  obtain ⟨t, h1, h2⟩ := transcribeVoice_text
    (okWorld (headerWith 0x80 0xBB 0 0)
      [⟨[⟨"ciao", 9 / 10⟩, ⟨"cacao", 1 / 10⟩]⟩, ⟨[]⟩, ⟨[⟨"mondo", 1 / 2⟩]⟩] 0)
    (headerWith 0x80 0xBB 0 0) 48000 _ (by decide) rfl rfl (by simp)
  exact ⟨t, h1, h2.trans (by decide)⟩

/-- C3: for a non-empty list of recognition results, the confidence of the transcription
built by `transcribeVoice` is the sum of the first-alternative confidences of the results that
have an alternative, divided by the number of all results (in exact arithmetic). -/
theorem transcribeVoice_confidence (w : World) (data : List Byte) (sr : Nat)
    (results : List SpeechRecognitionResult)
    (hsr : extractSampleRate data = Outcome.returned sr) (hc : w.newClient = Except.ok ())
    (hr : w.recognize (buildRequest data sr) = Except.ok results) (hne : results ≠ []) :
    ∃ t, (transcribeVoice w data).2 = Outcome.returned (Except.ok (some t))
      ∧ t.confidence
          = ((results.filterMap firstAlternative).map (fun a => a.confidence)).sum
              / (results.length : ℚ) := by
  rw [transcribeVoice_ok w data sr results hsr hc hr, aggregate_of_ne_nil results _ hne]
  exact ⟨_, rfl, rfl⟩

/-- C3, at two results, one without alternatives and one of confidence 9/10: the
confidence is 9/20, not 9/10. -/
theorem transcribeVoice_confidence_witness :
    ∃ t, (transcribeVoice
            (okWorld (headerWith 0x80 0xBB 0 0) [⟨[]⟩, ⟨[⟨"ciao", 9 / 10⟩]⟩] 0)
            (headerWith 0x80 0xBB 0 0)).2 = Outcome.returned (Except.ok (some t))
      ∧ t.confidence = 9 / 20 := by
  obtain ⟨t, h1, h2⟩ := transcribeVoice_confidence
    (okWorld (headerWith 0x80 0xBB 0 0) [⟨[]⟩, ⟨[⟨"ciao", 9 / 10⟩]⟩] 0)
    (headerWith 0x80 0xBB 0 0) 48000 _ (by decide) rfl rfl (by simp)
  refine ⟨t, h1, h2.trans ?_⟩
  simp only [List.filterMap_cons, List.filterMap_nil, firstAlternative, List.head?_nil,
    List.head?_cons, List.map_cons, List.map_nil, List.sum_cons, List.sum_nil, List.length_cons,
    List.length_nil]
  norm_num

/-! ## The handler -/

/-- C4: when the recognition call succeeds with an empty result list, `transcribeVoice`
returns no transcription and no error, and `handleVoiceMessage` sends the "message appears to
be empty" reply as its last message and never the generic error message; a non-empty result
list always yields a transcription. -/
theorem empty_results_reply (w : World) (c : Int) (v : Voice) (data : List Byte) (sr : Nat)
    (results : List SpeechRecognitionResult)
    (hdur : v.duration ≤ 60) (hd : (downloadVoiceMessage w v).2 = Except.ok data)
    (hsr : extractSampleRate data = Outcome.returned sr) (hc : w.newClient = Except.ok ())
    (hr : w.recognize (buildRequest data sr) = Except.ok results) :
    (results = [] →
        (transcribeVoice w data).2 = Outcome.returned (Except.ok none)
        ∧ (handleVoiceMessage w c v).2 = Outcome.returned ()
        ∧ sentMessages (handleVoiceMessage w c v).1 = [inProgressMessage, emptyMessage]
        ∧ (sentMessages (handleVoiceMessage w c v).1).getLast? = some emptyMessage
        ∧ errorMessage ∉ sentMessages (handleVoiceMessage w c v).1)
    ∧ (results ≠ [] →
        ∃ t, (transcribeVoice w data).2 = Outcome.returned (Except.ok (some t))) := by
  have ht := transcribeVoice_ok w data sr results hsr hc hr
  refine ⟨fun he => ?_, fun hne => ?_⟩
  · subst he
    have hagg : aggregate [] w.elapsed = none := rfl
    rw [hagg] at ht
    obtain ⟨url, htr⟩ := download_ok_trace w v data hd
    have hs : sentMessages (handleVoiceMessage w c v).1 = [inProgressMessage, emptyMessage] := by
      rw [handleVoiceMessage_none w c v data _ hdur hd ht, htr]
      rfl
    refine ⟨by rw [ht], by rw [handleVoiceMessage_none w c v data _ hdur hd ht], hs, ?_, ?_⟩
    · rw [hs]
      rfl
    · rw [hs]
      decide
  · rw [ht, aggregate_of_ne_nil results _ hne]
    exact ⟨_, rfl⟩

/-- C4, at a ten-second voice message on which the backend returns no result. -/
theorem empty_results_reply_witness :
    sentMessages (handleVoiceMessage (okWorld (headerWith 0x80 0xBB 0 0) [] 0) 7 ⟨"f", 10⟩).1
      = ["Trascrizione in corso...", "Questo messaggio sembra essere vuoto."] :=
  ((empty_results_reply (okWorld (headerWith 0x80 0xBB 0 0) [] 0) 7 ⟨"f", 10⟩
      (headerWith 0x80 0xBB 0 0) 48000 [] (by decide) rfl (by decide) rfl rfl).1 rfl).2.2.1

/-- C5: a voice message of declared duration above 60 seconds gets exactly one outbound
message, the "too long" rejection, and nothing else happens: no download, no sample-rate
extraction, no recognition call. A declared duration of exactly 60 is not rejected: the
handler acknowledges and goes on to the download. -/
theorem too_long_rejected (w : World) (c : Int) (v : Voice) :
    (v.duration > 60 →
        handleVoiceMessage w c v
            = ([Event.send c tooLongMessage "markdown"], Outcome.returned ())
        ∧ sentMessages (handleVoiceMessage w c v).1 = [tooLongMessage]
        ∧ externalCalls (handleVoiceMessage w c v).1 = []
        ∧ recognizeRequests (handleVoiceMessage w c v).1 = []
        ∧ logLines (handleVoiceMessage w c v).1 = [])
    ∧ (v.duration = 60 →
        ∃ rest, (handleVoiceMessage w c v).1
          = Event.send c inProgressMessage "markdown"
              :: Event.callGetFileDirectURL v.fileID :: rest) := by
  refine ⟨fun h => ?_, fun h => ?_⟩
  · have he : handleVoiceMessage w c v
        = ([Event.send c tooLongMessage "markdown"], Outcome.returned ()) := by
      simp only [handleVoiceMessage, h, if_true, sendMessage]
    rw [he]
    exact ⟨rfl, rfl, rfl, rfl, rfl⟩
  · obtain ⟨rest, hrest⟩ := handleVoiceMessage_trace_head w c v (by omega)
    obtain ⟨rest2, hrest2⟩ := download_trace_head w v
    rw [hrest, hrest2]
    exact ⟨rest2 ++ rest, rfl⟩

/-- C5, at declared durations 61 and 60. -/
theorem too_long_rejected_witness :
    handleVoiceMessage (okWorld (headerWith 0x80 0xBB 0 0) [] 0) 7 ⟨"f", 61⟩
        = ([Event.send 7 "Trascrivo solo messaggi fino a 60 secondi!" "markdown"],
            Outcome.returned ())
    ∧ ∃ rest, (handleVoiceMessage (okWorld (headerWith 0x80 0xBB 0 0) [] 0) 7 ⟨"f", 60⟩).1
        = Event.send 7 "Trascrizione in corso..." "markdown"
            :: Event.callGetFileDirectURL "f" :: rest :=
  ⟨((too_long_rejected (okWorld (headerWith 0x80 0xBB 0 0) [] 0) 7 ⟨"f", 61⟩).1
      (by decide)).1,
   (too_long_rejected (okWorld (headerWith 0x80 0xBB 0 0) [] 0) 7 ⟨"f", 60⟩).2 rfl⟩

/-- C6, as stated, fails: on a ten-second voice message whose download yields 30 bytes the
handler does not return after sending the generic error message. -/
theorem short_header_caught_counterexample :
    (⟨"f", 10⟩ : Voice).duration ≤ 60
    ∧ (downloadVoiceMessage (okWorld (List.replicate 30 0) [] 0) ⟨"f", 10⟩).2
        = Except.ok (List.replicate 30 0)
    ∧ (List.replicate 30 (0 : Byte)).length < 44
    ∧ ¬ ((handleVoiceMessage (okWorld (List.replicate 30 0) [] 0) 7 ⟨"f", 10⟩).2
            = Outcome.returned ()
          ∧ errorMessage ∈ sentMessages
              (handleVoiceMessage (okWorld (List.replicate 30 0) [] 0) 7 ⟨"f", 10⟩).1) := by
  decide

/-- C6, amended: for a voice message of declared duration at most 60 whose download
succeeds with fewer than 44 bytes, the header-extraction failure is not caught. After the
interim acknowledgement, `extractSampleRate` logs "unexpected data length: n" and panics, and
the panic leaves `handleVoiceMessage`; the generic error message is not sent and no
recognition call is made. -/
theorem short_header_panics (w : World) (c : Int) (v : Voice) (data : List Byte)
    (hdur : v.duration ≤ 60) (hd : (downloadVoiceMessage w v).2 = Except.ok data)
    (hlen : data.length < 44) :
    (handleVoiceMessage w c v).2
        = Outcome.panicked ("unexpected data length: " ++ toString data.length)
    ∧ sentMessages (handleVoiceMessage w c v).1 = [inProgressMessage]
    ∧ errorMessage ∉ sentMessages (handleVoiceMessage w c v).1
    ∧ recognizeRequests (handleVoiceMessage w c v).1 = []
    ∧ logLines (handleVoiceMessage w c v).1
        = ["unexpected data length: " ++ toString data.length] := by
  have ht : transcribeVoice w data
      = ([Event.log ("unexpected data length: " ++ toString data.length)],
          Outcome.panicked ("unexpected data length: " ++ toString data.length)) := by
    simp only [transcribeVoice, extractSampleRate, hlen, if_true]
  obtain ⟨url, htr⟩ := download_ok_trace w v data hd
  rw [handleVoiceMessage_panicked w c v data _ _ hdur hd ht, htr]
  refine ⟨rfl, rfl, ?_, rfl, rfl⟩
  have hs : sentMessages (sendMessage c inProgressMessage
      ++ [Event.callGetFileDirectURL v.fileID, Event.callHttpGet url, Event.callReadAll]
      ++ [Event.log ("unexpected data length: " ++ toString data.length)])
      = [inProgressMessage] := rfl
  rw [hs]
  decide

/-- C6 amended, at a ten-second voice message whose download yields 30 bytes. -/
theorem short_header_panics_witness :
    (handleVoiceMessage (okWorld (List.replicate 30 0) [] 0) 7 ⟨"f", 10⟩).2
        = Outcome.panicked "unexpected data length: 30"
    ∧ sentMessages (handleVoiceMessage (okWorld (List.replicate 30 0) [] 0) 7 ⟨"f", 10⟩).1
        = ["Trascrizione in corso..."] :=
  have h := short_header_panics (okWorld (List.replicate 30 0) [] 0) 7 ⟨"f", 10⟩
    (List.replicate 30 0) (by decide) rfl (by decide)
  ⟨h.1.trans (by decide), h.2.1⟩

/-! ## The recognition request -/

/-- C7, as stated, fails: with header bytes `00 00 00 80` the embedded value is 2^31, and the
request carries -2^31. -/
theorem request_sample_rate_counterexample :
    44 ≤ (headerWith 0 0 0 0x80).length
    ∧ extractSampleRate (headerWith 0 0 0 0x80) = Outcome.returned 2147483648
    ∧ (recognizeRequests
          (transcribeVoice (okWorld (headerWith 0 0 0 0x80) [] 0) (headerWith 0 0 0 0x80)).1).map
        (fun r => r.config.sampleRateHertz) = [-2147483648]
    ∧ ((-2147483648 : Int) ≠ 2147483648) := by
  decide

/-- C7, amended: for an audio buffer of at least 44 bytes (and a speech client that could be
created), `transcribeVoice` submits exactly one request; it carries that same buffer, the
encoding Ogg/Opus, the language `it-IT`, and as sample rate the conversion to `int32` of the
unsigned value `u` in bytes 40-43: `u` itself when `u < 2^31`, and `u - 2^32` (a negative
number) when `u ≥ 2^31`. -/
theorem request_sample_rate (w : World) (data : List Byte) (h : 44 ≤ data.length)
    (hc : w.newClient = Except.ok ()) :
    ∃ req, recognizeRequests (transcribeVoice w data).1 = [req]
      ∧ req.audio = data
      ∧ req.config.encoding = AudioEncoding.OGG_OPUS
      ∧ req.config.languageCode = "it-IT"
      ∧ (le32 (data.get ⟨40, by omega⟩) (data.get ⟨41, by omega⟩) (data.get ⟨42, by omega⟩)
            (data.get ⟨43, by omega⟩) < 2 ^ 31 →
          req.config.sampleRateHertz
            = ((le32 (data.get ⟨40, by omega⟩) (data.get ⟨41, by omega⟩)
                (data.get ⟨42, by omega⟩) (data.get ⟨43, by omega⟩) : Nat) : Int))
      ∧ (2 ^ 31 ≤ le32 (data.get ⟨40, by omega⟩) (data.get ⟨41, by omega⟩)
            (data.get ⟨42, by omega⟩) (data.get ⟨43, by omega⟩) →
          req.config.sampleRateHertz
            = ((le32 (data.get ⟨40, by omega⟩) (data.get ⟨41, by omega⟩)
                (data.get ⟨42, by omega⟩) (data.get ⟨43, by omega⟩) : Nat) : Int) - 2 ^ 32) := by
  have hsr := extractSampleRate_of_le data h
  have hlt := le32_lt data[40] data[41] data[42] data[43]
  refine ⟨buildRequest data (le32 data[40] data[41] data[42] data[43]), ?_, rfl, rfl, rfl, ?_, ?_⟩
  · cases hr : w.recognize (buildRequest data (le32 data[40] data[41] data[42] data[43])) with
    | error e => simp [transcribeVoice, hsr, hc, hr, recognizeRequests]
    | ok results => simp [transcribeVoice, hsr, hc, hr, recognizeRequests]
  · intro hv
    simp only [List.get_eq_getElem] at hv ⊢
    simp only [buildRequest, toInt32, Nat.mod_eq_of_lt hlt, hv, if_true]
  · intro hv
    simp only [List.get_eq_getElem] at hv ⊢
    have hn : ¬ le32 data[40] data[41] data[42] data[43] < 2 ^ 31 := by omega
    simp only [buildRequest, toInt32, Nat.mod_eq_of_lt hlt, hn, if_false]

/-- C7 amended, at a header holding 48000. -/
theorem request_sample_rate_witness :
    ∃ req, recognizeRequests
        (transcribeVoice (okWorld (headerWith 0x80 0xBB 0 0) [] 0) (headerWith 0x80 0xBB 0 0)).1
          = [req]
      ∧ req.config.sampleRateHertz = 48000 := by
  obtain ⟨req, h1, _, _, _, h5, _⟩ := request_sample_rate
    (okWorld (headerWith 0x80 0xBB 0 0) [] 0) (headerWith 0x80 0xBB 0 0) (by decide) rfl
  exact ⟨req, h1, (h5 (by decide)).trans (by decide)⟩

/-! ## Replies -/

/-- C8, as stated, fails: for the single segment "ciao" of confidence 0.9 and a recognition
call of 10.5 seconds, the final reply is `ciao\n\n\[confidenza: 90.0%; durata: 10 secondi]`,
not `ciao\n\n[confidence: 90.0%; duration: 10 seconds]`. -/
theorem final_reply_format_counterexample :
    sentMessages (handleVoiceMessage
        (okWorld (headerWith 0x80 0xBB 0 0) [⟨[⟨"ciao", 9 / 10⟩]⟩] 10500000000) 7 ⟨"f", 10⟩).1
      = ["Trascrizione in corso...", "ciao\n\n\\[confidenza: 90.0%; durata: 10 secondi]"]
    ∧ (sentMessages (handleVoiceMessage
        (okWorld (headerWith 0x80 0xBB 0 0) [⟨[⟨"ciao", 9 / 10⟩]⟩] 10500000000) 7
          ⟨"f", 10⟩).1).getLast?
      ≠ some ("ciao" ++ "\n\n" ++ "[confidence: 90.0%; duration: 10 seconds]") := by
  decide!

/-- C8, amended: for a transcription (text `t`, confidence `c`, duration `N` seconds)
produced by a successful recognition, the final reply sent by `handleVoiceMessage` is exactly
`t`, two newlines, and `\[confidenza: P%; durata: N secondi]`, where `P` is the `float32`
product `100*c` (rounded to binary32) rendered with one decimal place: the annotation is in
Italian and its opening bracket is escaped with a backslash. -/
theorem final_reply_format (w : World) (c : Int) (v : Voice) (data : List Byte)
    (t : Transcription)
    (hdur : v.duration ≤ 60) (hd : (downloadVoiceMessage w v).2 = Except.ok data)
    (ht : (transcribeVoice w data).2 = Outcome.returned (Except.ok (some t))) :
    (sentMessages (handleVoiceMessage w c v).1).getLast?
        = some (t.text ++ "\n\n" ++ "\\[confidenza: " ++ formatPercent t.confidence
            ++ "%; durata: " ++ toString t.duration ++ " secondi]")
    ∧ (handleVoiceMessage w c v).2 = Outcome.returned () := by
  rcases htv : transcribeVoice w data with ⟨tr2, out⟩
  rw [htv] at ht
  simp only at ht
  subst ht
  rw [handleVoiceMessage_some w c v data tr2 t hdur hd htv]
  refine ⟨?_, rfl⟩
  rw [sentMessages_append, ← replyText_eq]
  exact List.getLast?_concat _

/-- C8 amended, at a recognition call of 10.5 seconds that returns the single segment "ciao":
with confidence 0.9 the reply shows 90.0%, and with the binary32 confidence
7075791/2^23 = 0.84350001..., whose product with 100 rounds to 84.34999847..., it shows
84.3%. -/
theorem final_reply_format_witness :
    (sentMessages (handleVoiceMessage
        (okWorld (headerWith 0x80 0xBB 0 0) [⟨[⟨"ciao", 9 / 10⟩]⟩] 10500000000) 7
          ⟨"f", 10⟩).1).getLast?
      = some "ciao\n\n\\[confidenza: 90.0%; durata: 10 secondi]"
    ∧ (sentMessages (handleVoiceMessage
        (okWorld (headerWith 0x80 0xBB 0 0) [⟨[⟨"ciao", 7075791 / 8388608⟩]⟩] 10500000000) 7
          ⟨"f", 10⟩).1).getLast?
      = some "ciao\n\n\\[confidenza: 84.3%; durata: 10 secondi]" :=
  ⟨(final_reply_format
      (okWorld (headerWith 0x80 0xBB 0 0) [⟨[⟨"ciao", 9 / 10⟩]⟩] 10500000000) 7 ⟨"f", 10⟩
      (headerWith 0x80 0xBB 0 0) ⟨"ciao", 9 / 10, 10⟩ (by decide) rfl (by decide!)).1.trans
      (by decide!),
   (final_reply_format
      (okWorld (headerWith 0x80 0xBB 0 0) [⟨[⟨"ciao", 7075791 / 8388608⟩]⟩] 10500000000) 7
      ⟨"f", 10⟩ (headerWith 0x80 0xBB 0 0) ⟨"ciao", 7075791 / 8388608, 10⟩ (by decide) rfl
      (by decide!)).1.trans (by decide!)⟩

/-- C9, as stated, fails: when the backend returns one result without alternatives, the
handler sends a formatted reply with an empty transcript, not the "message appears to be
empty" reply. -/
theorem no_alternatives_reply_counterexample :
    (∀ r ∈ [(⟨[]⟩ : SpeechRecognitionResult)], r.alternatives = [])
    ∧ sentMessages (handleVoiceMessage
        (okWorld (headerWith 0x80 0xBB 0 0) [⟨[]⟩] 0) 7 ⟨"f", 10⟩).1
      = ["Trascrizione in corso...", "\n\n\\[confidenza: 0.0%; durata: 0 secondi]"]
    ∧ emptyMessage ∉ sentMessages (handleVoiceMessage
        (okWorld (headerWith 0x80 0xBB 0 0) [⟨[]⟩] 0) 7 ⟨"f", 10⟩).1 := by
  decide!

/-- C9, amended: when recognition succeeds, the handler treats the outcome as an empty result
exactly when the result list is empty: it then sends the "message appears to be empty" reply
and neither a formatted reply nor the generic error message. Every non-empty result list gets
the formatted reply of its transcription, and neither the "empty" reply nor the generic error
message; when all its results lack alternatives, that reply has empty text and confidence
0.0%. -/
theorem no_alternatives_reply (w : World) (c : Int) (v : Voice) (data : List Byte) (sr : Nat)
    (results : List SpeechRecognitionResult)
    (hdur : v.duration ≤ 60) (hd : (downloadVoiceMessage w v).2 = Except.ok data)
    (hsr : extractSampleRate data = Outcome.returned sr) (hc : w.newClient = Except.ok ())
    (hr : w.recognize (buildRequest data sr) = Except.ok results) :
    (results = [] →
        sentMessages (handleVoiceMessage w c v).1 = [inProgressMessage, emptyMessage])
    ∧ (results ≠ [] → (∀ r ∈ results, r.alternatives = []) →
        sentMessages (handleVoiceMessage w c v).1
            = [inProgressMessage,
                "\n\n\\[confidenza: 0.0%; durata: " ++ toString (wholeSeconds w.elapsed)
                  ++ " secondi]"]
        ∧ emptyMessage ∉ sentMessages (handleVoiceMessage w c v).1
        ∧ errorMessage ∉ sentMessages (handleVoiceMessage w c v).1)
    ∧ (results ≠ [] →
        (∃ t, (transcribeVoice w data).2 = Outcome.returned (Except.ok (some t))
          ∧ sentMessages (handleVoiceMessage w c v).1
              = [inProgressMessage,
                  t.text ++ "\n\n" ++ "\\[confidenza: " ++ formatPercent t.confidence
                    ++ "%; durata: " ++ toString t.duration ++ " secondi]"])
        ∧ emptyMessage ∉ sentMessages (handleVoiceMessage w c v).1
        ∧ errorMessage ∉ sentMessages (handleVoiceMessage w c v).1)
    ∧ (emptyMessage ∈ sentMessages (handleVoiceMessage w c v).1 ↔ results = []) := by
  have ht := transcribeVoice_ok w data sr results hsr hc hr
  obtain ⟨url, htr⟩ := download_ok_trace w v data hd
  have h3 : emptyMessage ≠ inProgressMessage := by decide
  have h4 : errorMessage ≠ inProgressMessage := by decide
  have hempty : results = [] →
      sentMessages (handleVoiceMessage w c v).1 = [inProgressMessage, emptyMessage] := by
    intro he
    subst he
    have hagg : aggregate [] w.elapsed = none := rfl
    rw [hagg] at ht
    rw [handleVoiceMessage_none w c v data _ hdur hd ht, htr]
    rfl
  have hsome : results ≠ [] →
      ∃ t, (transcribeVoice w data).2 = Outcome.returned (Except.ok (some t))
        ∧ aggregate results w.elapsed = some t
        ∧ sentMessages (handleVoiceMessage w c v).1 = [inProgressMessage, replyText t] := by
    intro hne
    have hagg := aggregate_of_ne_nil results w.elapsed hne
    rw [hagg] at ht
    refine ⟨_, by rw [ht], hagg, ?_⟩
    rw [handleVoiceMessage_some w c v data _ _ hdur hd ht, htr]
    rfl
  have hnot : results ≠ [] →
      emptyMessage ∉ sentMessages (handleVoiceMessage w c v).1
      ∧ errorMessage ∉ sentMessages (handleVoiceMessage w c v).1 := by
    intro hne
    obtain ⟨t, _, _, hs⟩ := hsome hne
    rw [hs]
    have h1 : emptyMessage ≠ replyText t := replyText_ne t _ (by decide)
    have h2 : errorMessage ≠ replyText t := replyText_ne t _ (by decide)
    constructor
    · simp only [List.mem_cons, List.mem_singleton, List.not_mem_nil, or_false, not_or]
      exact ⟨h3, h1⟩
    · simp only [List.mem_cons, List.mem_singleton, List.not_mem_nil, or_false, not_or]
      exact ⟨h4, h2⟩
  refine ⟨hempty, fun hne hall => ⟨?_, hnot hne⟩, fun hne => ⟨?_, hnot hne⟩, ?_⟩
  · obtain ⟨t, _, hagg, hs⟩ := hsome hne
    rw [aggregate_of_ne_nil results _ hne, filterMap_firstAlternative_nil results hall] at hagg
    have ht2 := (Option.some.inj hagg).symm
    rw [hs, ht2]
    simp only [replyText, List.map_nil, List.sum_nil, joinSingleSpace, zero_div,
      formatPercent_zero, String.empty_append]
    have e0 : "\n\n\\[confidenza: 0.0%; durata: "
        = "\n\n\\[confidenza: " ++ ("0.0" ++ "%; durata: ") := by decide
    rw [e0]
    simp only [String.append_assoc]
  · obtain ⟨t, h1, _, hs⟩ := hsome hne
    exact ⟨t, h1, by rw [hs, replyText_eq]⟩
  · constructor
    · intro hmem
      by_contra hne
      exact (hnot hne).1 hmem
    · intro he
      rw [hempty he]
      simp

/-- C9 amended, at a backend that returns two results, both without alternatives, after
three seconds. -/
theorem no_alternatives_reply_witness :
    sentMessages (handleVoiceMessage
        (okWorld (headerWith 0x80 0xBB 0 0) [⟨[]⟩, ⟨[]⟩] 3000000000) 7 ⟨"f", 10⟩).1
      = ["Trascrizione in corso...", "\n\n\\[confidenza: 0.0%; durata: 3 secondi]"] :=
  ((no_alternatives_reply (okWorld (headerWith 0x80 0xBB 0 0) [⟨[]⟩, ⟨[]⟩] 3000000000) 7
      ⟨"f", 10⟩ (headerWith 0x80 0xBB 0 0) 48000 [⟨[]⟩, ⟨[]⟩] (by decide) rfl (by decide) rfl
      rfl).2.1 (by decide) (by decide)).1.trans (by decide)

/-! ## Failure handling -/

/-- C10, as stated, fails: when fetching the file URL fails, the handler sends two outbound
messages and writes two log lines. -/
theorem failure_one_message_counterexample :
    (⟨"f", 10⟩ : Voice).duration ≤ 60
    ∧ (urlFailWorld "boom").getFileDirectURL "f" = Except.error "boom"
    ∧ sentMessages (handleVoiceMessage (urlFailWorld "boom") 7 ⟨"f", 10⟩).1
        = ["Trascrizione in corso...",
            "C'è stato un errore durante la trascrizione. Riprova più tardi."]
    ∧ logLines (handleVoiceMessage (urlFailWorld "boom") 7 ⟨"f", 10⟩).1
        = ["could not get voice file url: boom\n", "could not get voice data: boom\n"]
    ∧ ¬ ((sentMessages (handleVoiceMessage (urlFailWorld "boom") 7 ⟨"f", 10⟩).1).length = 1
          ∧ (logLines (handleVoiceMessage (urlFailWorld "boom") 7 ⟨"f", 10⟩).1).length = 1) := by
  decide

/-- C10, amended: for a voice message of declared duration at most 60 on which a pipeline
step fails (fetching the file URL, downloading the audio, creating the speech client, or the
recognition call), `handleVoiceMessage` returns normally after exactly two outbound messages
(the interim acknowledgement, then the generic error message), and no external step is
performed twice. It writes exactly two log lines (one where the step failed, one in the
handler), except that a download failing while the response body is read, which
`downloadVoiceMessage` returns unlogged, leaves the handler's one log line. -/
theorem failure_two_messages (w : World) (c : Int) (v : Voice)
    (hdur : v.duration ≤ 60) (hfail : StepFails w v ∨ BodyReadFails w v) :
    (handleVoiceMessage w c v).2 = Outcome.returned ()
    ∧ sentMessages (handleVoiceMessage w c v).1 = [inProgressMessage, errorMessage]
    ∧ (externalCalls (handleVoiceMessage w c v).1).Nodup
    ∧ (StepFails w v → (logLines (handleVoiceMessage w c v).1).length = 2)
    ∧ (BodyReadFails w v → (logLines (handleVoiceMessage w c v).1).length = 1) := by
  refine ⟨?_, ?_, ?_, fun h => (stepFails_trace w c v hdur h).2.2.1,
    fun h => (bodyReadFails_trace w c v hdur h).2.2.1⟩
  · rcases hfail with h | h
    · exact (stepFails_trace w c v hdur h).1
    · exact (bodyReadFails_trace w c v hdur h).1
  · rcases hfail with h | h
    · exact (stepFails_trace w c v hdur h).2.1
    · exact (bodyReadFails_trace w c v hdur h).2.1
  · rcases hfail with h | h
    · exact (stepFails_trace w c v hdur h).2.2.2
    · exact (bodyReadFails_trace w c v hdur h).2.2.2

/-- C10 amended, at a ten-second voice message whose file URL cannot be fetched (two log
lines) and at one whose response body cannot be read (one log line). -/
theorem failure_two_messages_witness :
    (sentMessages (handleVoiceMessage (urlFailWorld "boom") 7 ⟨"f", 10⟩).1
        = ["Trascrizione in corso...",
            "C'è stato un errore durante la trascrizione. Riprova più tardi."]
      ∧ (logLines (handleVoiceMessage (urlFailWorld "boom") 7 ⟨"f", 10⟩).1).length = 2)
    ∧ (sentMessages (handleVoiceMessage (bodyFailWorld "boom") 7 ⟨"f", 10⟩).1
        = ["Trascrizione in corso...",
            "C'è stato un errore durante la trascrizione. Riprova più tardi."]
      ∧ (logLines (handleVoiceMessage (bodyFailWorld "boom") 7 ⟨"f", 10⟩).1).length = 1) :=
  have h1 := failure_two_messages (urlFailWorld "boom") 7 ⟨"f", 10⟩ (by decide)
    (Or.inl (Or.inl ⟨"boom", rfl⟩))
  have h2 := failure_two_messages (bodyFailWorld "boom") 7 ⟨"f", 10⟩ (by decide)
    (Or.inr ⟨_, _, "boom", rfl, rfl, rfl⟩)
  ⟨⟨h1.2.1, h1.2.2.2.1 (Or.inl ⟨"boom", rfl⟩)⟩,
   ⟨h2.2.1, h2.2.2.2.2 ⟨_, _, "boom", rfl, rfl, rfl⟩⟩⟩

end Amanuense
